import Mathlib

/-!
Verification of the zeta-hackathon cross-chain deposit/lending bridge.

The repository holds three Solana (Anchor) programs:

* `src/call/solana/programs/deposit-contract/src/lib.rs` — the legacy-mode
  bridge (namespace `DC` below): fixed 128-byte ABI-style message encoding,
  pause flag, per-asset PDA registry, deposit/repay/borrow/withdraw entry
  points whose gateway invocation is a logging placeholder.
* `src/lending-zeta-solana-sui/solana/programs/connected/src/lib.rs` — the
  typed-binary-mode bridge (namespace `LZ`): Borsh-encoded messages with a
  16-byte action tag, a fixed 32-slot in-account asset array with linear scan
  and swap-remove, and an authenticated `on_call` inbound entry point.
* `src/call/solana/programs/connected/src/lib.rs` — a minimal example
  connected program (namespace `CC`): an `on_call` that stores sender and
  message with no authentication at all.

Shallow embedding conventions: byte strings are `List Nat` (each element a
byte value); `Pubkey` is the 32-byte key as a byte list; account state
structures mirror the Rust `#[account]` structs field by field; every
instruction handler is a pure function from the (already
constraint-validated) accounts and arguments to `Except E out`, where
`Except.error` models the transaction aborting with that error code and no
account mutation (Anchor/Solana semantics: a failed instruction commits
nothing), and the `ok` payload carries the produced state, lamport/token
transfers and the emitted event.  The fixed-size `[SupportedAsset; 32]`
array together with `asset_count` is modelled by the list of its first
`asset_count` entries (the only slots the program ever reads or writes).
-/

/-- Bytes of a string's UTF-8/ASCII representation (all literals used in the
programs are ASCII, where code points and bytes coincide). -/
def asciiBytes (s : String) : List Nat :=
  s.data.map Char.toNat

/-- Little-endian 8-byte serialization of a `u64`/`i64` bit pattern, as Borsh
and `u64::to_le_bytes` produce. -/
def le8 (n : Nat) : List Nat :=
  [n % 256, n / 256 % 256, n / 256 ^ 2 % 256, n / 256 ^ 3 % 256,
   n / 256 ^ 4 % 256, n / 256 ^ 5 % 256, n / 256 ^ 6 % 256, n / 256 ^ 7 % 256]

/-- Big-endian 4-byte serialization of a `u32`, as `u32::to_be_bytes`. -/
def beBytes4 (n : Nat) : List Nat :=
  [n / 256 ^ 3 % 256, n / 256 ^ 2 % 256, n / 256 % 256, n % 256]

/-- Big-endian integer decoding of a byte string. -/
def beVal (l : List Nat) : Nat :=
  l.foldl (fun a b => a * 256 + b) 0

/-- Lowercase hex digit of a value below 16, as a byte (`hex::encode`). -/
def hexDigitByte (n : Nat) : Nat :=
  if n < 10 then 48 + n else 87 + n

/-- Lowercase hex encoding of a byte string, as `hex::encode`. -/
def hexBytes (l : List Nat) : List Nat :=
  (l.map (fun b => [hexDigitByte (b / 16), hexDigitByte (b % 16)])).flatten

/-- Decimal ASCII digits of a number, as the `{}` placeholder of `format!`
renders a `u64`. -/
def decimalBytes (n : Nat) : List Nat :=
  asciiBytes (toString n)

/-- Rust `Vec::resize(n, v)`: extend with `v` when shorter than `n`, truncate
when longer. -/
def vecResize (l : List Nat) (n : Nat) (v : Nat) : List Nat :=
  (l ++ List.replicate (n - l.length) v).take n

/-- A 32-byte Solana public key, as its byte list. -/
abbrev Pubkey := List Nat

/-- The system program id, `11111111111111111111111111111111`: 32 zero bytes.
This is also `Pubkey::default()`, which the `LZ` program uses as the sentinel
asset id for native SOL. -/
def systemProgramId : Pubkey := List.replicate 32 0

namespace DC

/-- Error enum of the deposit-contract program (`DepositContractError`). -/
inductive DepositContractError where
  | Unauthorized
  | InvalidAmount
  | UnsupportedAsset
  | InvalidChainId
  | DepositFailed
  | ContractPaused
  | UseDepositSol
  | UseRepaySol
  | InsufficientDepositFee
deriving DecidableEq

/-- `GAS_LIMIT: u64 = 5_000_000`. -/
def GAS_LIMIT : Nat := 5000000

/-- `DEPOSIT_FEE: u64 = 2_000_000` — the minimum-fee floor for native SOL
deposits (0.002 SOL in lamports). -/
def DEPOSIT_FEE : Nat := 2000000

/-- The `ContractState` account: singleton bridge configuration. -/
structure ContractState where
  authority : Pubkey
  lending_protocol_address : List Nat
  zeta_chain_id : Nat
  is_paused : Bool
  bump : Nat
deriving DecidableEq

/-- The per-mint `AssetConfig` account of the asset registry. -/
structure AssetConfig where
  mint : Pubkey
  decimals : Nat
  is_native : Bool
  is_supported : Bool
  bump : Nat
deriving DecidableEq

/-- A custody transfer performed by a handler: either a system-program SOL
transfer or an SPL `token::transfer` with the given authority. -/
inductive Transfer where
  | sol (src dst : Pubkey) (amount : Nat)
  | spl (src dst auth : Pubkey) (amount : Nat)
deriving DecidableEq

/-- Events emitted by the deposit-contract program. -/
inductive Event where
  | ContractInitialized (authority : Pubkey) (lending_protocol_address : List Nat)
      (zeta_chain_id : Nat)
  | AssetAdded (mint : Pubkey) (decimals : Nat) (is_native : Bool)
  | AssetRemoved (mint : Pubkey)
  | LendingProtocolAddressUpdated (old_address new_address : List Nat) (chain_id : Nat)
  | DepositInitiated (user asset : Pubkey) (amount : Nat) (on_behalf_of : List Nat)
  | RepayInitiated (user asset : Pubkey) (amount : Nat) (on_behalf_of : List Nat)
  | BorrowCrossChainInitiated (user : Pubkey) (asset : List Nat) (amount : Nat)
      (destination_chain : Nat) (recipient : List Nat)
  | WithdrawCrossChainInitiated (user : Pubkey) (asset : List Nat) (amount : Nat)
      (destination_chain : Nat) (recipient : List Nat)
  | PauseStateChanged (is_paused : Bool)
deriving DecidableEq

/-- `create_supply_message`: manual ABI encoding of `("supply", address)`.
The Rust function builds a `Vec` by appending 28 zero bytes, `64u32`
big-endian, the 20-byte address zero-extended into a 32-byte word, 28 zero
bytes, `6u32` big-endian, the ASCII bytes of `"supply"`, 26 zero bytes, and
finally `resize(128, 0)`.  `on_behalf_of` has Rust type `[u8; 20]`; theorems
carry the corresponding length hypothesis. -/
def create_supply_message (on_behalf_of : List Nat) : List Nat :=
  let evm_address := List.replicate 12 0 ++ on_behalf_of
  let message :=
    List.replicate 28 0 ++ beBytes4 64
      ++ evm_address
      ++ List.replicate 28 0 ++ beBytes4 6
      ++ asciiBytes ("supply") ++ List.replicate 26 0
  vecResize message 128 0

/-- `create_repay_message`: manual ABI encoding of `("repay", address)`, the
same layout with length word `5`, tag `"repay"` and 27 padding bytes. -/
def create_repay_message (on_behalf_of : List Nat) : List Nat :=
  let evm_address := List.replicate 12 0 ++ on_behalf_of
  let message :=
    List.replicate 28 0 ++ beBytes4 64
      ++ evm_address
      ++ List.replicate 28 0 ++ beBytes4 5
      ++ asciiBytes ("repay") ++ List.replicate 27 0
  vecResize message 128 0

/-- `create_borrow_cross_chain_message`: the simplified placeholder encoding
`format!("borrowCrossChain:{}:{}:{}:{}", hex(user), amount, chain, hex(recipient))`
as UTF-8 bytes. -/
def create_borrow_cross_chain_message (user : List Nat) (amount : Nat)
    (destination_chain : Nat) (recipient : List Nat) : List Nat :=
  asciiBytes ("borrowCrossChain:") ++ hexBytes user
    ++ asciiBytes (":") ++ decimalBytes amount
    ++ asciiBytes (":") ++ decimalBytes destination_chain
    ++ asciiBytes (":") ++ hexBytes recipient

/-- `create_withdraw_cross_chain_message`: same placeholder encoding with the
`withdrawCrossChain` tag. -/
def create_withdraw_cross_chain_message (user : List Nat) (amount : Nat)
    (destination_chain : Nat) (recipient : List Nat) : List Nat :=
  asciiBytes ("withdrawCrossChain:") ++ hexBytes user
    ++ asciiBytes (":") ++ decimalBytes amount
    ++ asciiBytes (":") ++ decimalBytes destination_chain
    ++ asciiBytes (":") ++ hexBytes recipient

/-- Result payload of a value-flow handler: custody transfers performed, the
encoded cross-chain message handed to the gateway, and the emitted event.
The gateway invocation helpers (`invoke_gateway_*`) are logging placeholders
in the source: they perform no CPI and always succeed, so they contribute
nothing beyond the message already recorded here. -/
abbrev FlowOut := List Transfer × List Nat × Event

/-- `deposit_sol`.  `require!` chain: pause, `amount > 0`,
`amount >= DEPOSIT_FEE`; then builds the supply message, invokes the
(placeholder) gateway and emits `DepositInitiated` with SOL represented by
the system program id.  No SOL is moved by the handler itself. -/
def deposit_sol (s : ContractState) (user : Pubkey) (amount : Nat)
    (on_behalf_of : List Nat) : Except DepositContractError FlowOut :=
  if s.is_paused then .error .ContractPaused
  else if amount = 0 then .error .InvalidAmount
  else if amount < DEPOSIT_FEE then .error .InsufficientDepositFee
  else
    let message := create_supply_message on_behalf_of
    .ok ([], message, .DepositInitiated user systemProgramId amount on_behalf_of)

/-- `deposit_spl_token`.  `require!` chain: pause, `amount > 0`,
`asset_config.is_supported` (else `UnsupportedAsset`), `!asset_config.is_native`
(else `UseDepositSol`); then transfers `amount` tokens from the user's token
account to the contract's and emits `DepositInitiated`. -/
def deposit_spl_token (s : ContractState) (asset_config : AssetConfig)
    (user mint user_token_account contract_token_account : Pubkey)
    (amount : Nat) (on_behalf_of : List Nat) :
    Except DepositContractError FlowOut :=
  if s.is_paused then .error .ContractPaused
  else if amount = 0 then .error .InvalidAmount
  else if ¬ asset_config.is_supported then .error .UnsupportedAsset
  else if asset_config.is_native then .error .UseDepositSol
  else
    let t := Transfer.spl user_token_account contract_token_account user amount
    let message := create_supply_message on_behalf_of
    .ok ([t], message, .DepositInitiated user mint amount on_behalf_of)

/-- `repay_sol`: same shape as `deposit_sol` with the repay message and
`RepayInitiated`. -/
def repay_sol (s : ContractState) (user : Pubkey) (amount : Nat)
    (on_behalf_of : List Nat) : Except DepositContractError FlowOut :=
  if s.is_paused then .error .ContractPaused
  else if amount = 0 then .error .InvalidAmount
  else if amount < DEPOSIT_FEE then .error .InsufficientDepositFee
  else
    let message := create_repay_message on_behalf_of
    .ok ([], message, .RepayInitiated user systemProgramId amount on_behalf_of)

/-- `repay_spl_token`: same shape as `deposit_spl_token` with `UseRepaySol`
for native-flagged assets, the repay message and `RepayInitiated`. -/
def repay_spl_token (s : ContractState) (asset_config : AssetConfig)
    (user mint user_token_account contract_token_account : Pubkey)
    (amount : Nat) (on_behalf_of : List Nat) :
    Except DepositContractError FlowOut :=
  if s.is_paused then .error .ContractPaused
  else if amount = 0 then .error .InvalidAmount
  else if ¬ asset_config.is_supported then .error .UnsupportedAsset
  else if asset_config.is_native then .error .UseRepaySol
  else
    let t := Transfer.spl user_token_account contract_token_account user amount
    let message := create_repay_message on_behalf_of
    .ok ([t], message, .RepayInitiated user mint amount on_behalf_of)

/-- `borrow_cross_chain`: pause and `amount > 0` checks, then a pure message
relay (`invoke_gateway_call`, a placeholder) — no value moves. -/
def borrow_cross_chain (s : ContractState) (user : Pubkey) (asset : List Nat)
    (amount destination_chain : Nat) (recipient : List Nat) :
    Except DepositContractError FlowOut :=
  if s.is_paused then .error .ContractPaused
  else if amount = 0 then .error .InvalidAmount
  else
    let message := create_borrow_cross_chain_message user amount destination_chain recipient
    .ok ([], message,
      .BorrowCrossChainInitiated user asset amount destination_chain recipient)

/-- `withdraw_cross_chain`: pause and `amount > 0` checks, then a pure
message relay. -/
def withdraw_cross_chain (s : ContractState) (user : Pubkey) (asset : List Nat)
    (amount destination_chain : Nat) (recipient : List Nat) :
    Except DepositContractError FlowOut :=
  if s.is_paused then .error .ContractPaused
  else if amount = 0 then .error .InvalidAmount
  else
    let message := create_withdraw_cross_chain_message user amount destination_chain recipient
    .ok ([], message,
      .WithdrawCrossChainInitiated user asset amount destination_chain recipient)

/-- `set_pause_state`: authority-gated (by the account constraint, not the
body), unconditional flip of the pause flag. -/
def set_pause_state (s : ContractState) (is_paused : Bool) :
    Except DepositContractError (ContractState × Event) :=
  .ok ({ s with is_paused := is_paused }, .PauseStateChanged is_paused)

/-- `add_supported_asset`: initializes the per-mint `AssetConfig` PDA with
`is_supported = true`.  Account creation itself is out of scope here. -/
def add_supported_asset (mint : Pubkey) (decimals : Nat) (is_native : Bool)
    (bump : Nat) : Except DepositContractError (AssetConfig × Event) :=
  .ok (⟨mint, decimals, is_native, true, bump⟩, .AssetAdded mint decimals is_native)

/-- `remove_supported_asset`: soft delete — flips `is_supported` to false. -/
def remove_supported_asset (asset_config : AssetConfig) :
    Except DepositContractError (AssetConfig × Event) :=
  .ok ({ asset_config with is_supported := false }, .AssetRemoved asset_config.mint)

/-- `update_lending_protocol_address`: `require_eq!` of the expected chain id
against the stored one (else `InvalidChainId`, aborting before any write),
then replaces the address and emits the old/new pair. -/
def update_lending_protocol_address (s : ContractState)
    (new_lending_protocol_address : List Nat) (expected_zeta_chain_id : Nat) :
    Except DepositContractError (ContractState × Event) :=
  if expected_zeta_chain_id = s.zeta_chain_id then
    .ok ({ s with lending_protocol_address := new_lending_protocol_address },
      .LendingProtocolAddressUpdated s.lending_protocol_address
        new_lending_protocol_address s.zeta_chain_id)
  else .error .InvalidChainId

end DC

/-- Validity of a continuation byte `10xxxxxx` of a multi-byte UTF-8
sequence. -/
def utf8Cont (b : Nat) : Bool :=
  128 ≤ b && b ≤ 191

/-- UTF-8 validity of a byte string (RFC 3629 table), the check performed by
`String::from_utf8`.  The stored "decoded string" keeps exactly these bytes,
so the mailbox message is modelled by the byte list itself. -/
def isValidUtf8 : List Nat → Bool
  | [] => true
  | b :: rest =>
    if b ≤ 127 then isValidUtf8 rest
    else if 194 ≤ b ∧ b ≤ 223 then
      match rest with
      | c1 :: r => utf8Cont c1 && isValidUtf8 r
      | [] => false
    else if b = 224 then
      match rest with
      | c1 :: c2 :: r => (160 ≤ c1 && c1 ≤ 191) && utf8Cont c2 && isValidUtf8 r
      | _ => false
    else if 225 ≤ b ∧ b ≤ 236 then
      match rest with
      | c1 :: c2 :: r => utf8Cont c1 && utf8Cont c2 && isValidUtf8 r
      | _ => false
    else if b = 237 then
      match rest with
      | c1 :: c2 :: r => (128 ≤ c1 && c1 ≤ 159) && utf8Cont c2 && isValidUtf8 r
      | _ => false
    else if 238 ≤ b ∧ b ≤ 239 then
      match rest with
      | c1 :: c2 :: r => utf8Cont c1 && utf8Cont c2 && isValidUtf8 r
      | _ => false
    else if b = 240 then
      match rest with
      | c1 :: c2 :: c3 :: r =>
        (144 ≤ c1 && c1 ≤ 191) && utf8Cont c2 && utf8Cont c3 && isValidUtf8 r
      | _ => false
    else if 241 ≤ b ∧ b ≤ 243 then
      match rest with
      | c1 :: c2 :: c3 :: r =>
        utf8Cont c1 && utf8Cont c2 && utf8Cont c3 && isValidUtf8 r
      | _ => false
    else if b = 244 then
      match rest with
      | c1 :: c2 :: c3 :: r =>
        (128 ≤ c1 && c1 ≤ 143) && utf8Cont c2 && utf8Cont c3 && isValidUtf8 r
      | _ => false
    else false

namespace LZ

/-- Error enum of the lending-zeta connected program (`ErrorCode`). -/
inductive ErrorCode where
  | InvalidDataFormat
  | AssetNotSupported
  | InvalidAmount
  | InvalidAddress
  | MaxAssetsReached
  | InvalidChainId
  | DepositFailed
  | UnauthorizedGateway
  | UnauthorizedTssAuthority
  | InvalidSignature
  | InvalidMessage
  | EncodingError
  | InvalidTokenAccountOwner
  | InvalidTokenMint
  | InsufficientBalance
deriving DecidableEq

/-- The `#[msg(...)]` text attached to each error code in the source. -/
def ErrorCode.msg : ErrorCode → String
  | .InvalidDataFormat => "The data provided could not be converted to a valid UTF-8 string."
  | .AssetNotSupported => "Asset not supported"
  | .InvalidAmount => "Invalid amount"
  | .InvalidAddress => "Invalid address"
  | .MaxAssetsReached => "Maximum number of supported assets reached"
  | .InvalidChainId => "Invalid chain ID"
  | .DepositFailed => "Deposit failed"
  | .UnauthorizedGateway => "Unauthorized gateway - only ZetaChain Gateway can call this function"
  | .UnauthorizedTssAuthority => "Unauthorized TSS authority"
  | .InvalidSignature => "Invalid signature provided"
  | .InvalidMessage => "Invalid message for signature verification"
  | .EncodingError => "Message encoding/decoding failed"
  | .InvalidTokenAccountOwner => "Invalid token account owner"
  | .InvalidTokenMint => "Invalid token mint"
  | .InsufficientBalance => "Insufficient token balance"

/-- All fifteen error codes of the program (completeness is proved below in
`LZ.mem_allErrorCodes`). -/
def allErrorCodes : List ErrorCode :=
  [.InvalidDataFormat, .AssetNotSupported, .InvalidAmount, .InvalidAddress,
   .MaxAssetsReached, .InvalidChainId, .DepositFailed, .UnauthorizedGateway,
   .UnauthorizedTssAuthority, .InvalidSignature, .InvalidMessage,
   .EncodingError, .InvalidTokenAccountOwner, .InvalidTokenMint,
   .InsufficientBalance]

/-- `MAX_SUPPORTED_ASSETS: u8 = 32`. -/
def MAX_SUPPORTED_ASSETS : Nat := 32

/-- `ZETACHAIN_GATEWAY_PROGRAM_ID.parse::<Pubkey>()`: the statically
configured gateway identity.  The concrete 32 bytes of the base58 decode are
irrelevant to every claim (only equality with this constant is ever tested),
so an arbitrary fixed key stands in for the parsed value. -/
def gatewayPubkey : Pubkey := List.replicate 31 0 ++ [90]

/-- `TSS_AUTHORITY.parse::<Pubkey>()`: the statically configured
threshold-signature authority, likewise an arbitrary fixed stand-in for the
parsed base58 constant (distinct from `gatewayPubkey`). -/
def tssPubkey : Pubkey := List.replicate 31 0 ++ [84]

/-- One slot of the fixed-size asset registry (`SupportedAsset`). -/
structure SupportedAsset where
  mint : Pubkey
  is_supported : Bool
  decimals : Nat
  is_native : Bool
deriving DecidableEq, Inhabited

/-- The `DepositContract` account.  The Rust struct holds
`supported_assets: [SupportedAsset; 32]` plus `asset_count: u8`; the program
only ever reads and writes slots `0 .. asset_count`, so the state is
modelled by that live prefix as a list (`asset_count` is its length). -/
structure DepositContract where
  authority : Pubkey
  lending_protocol_address : List Nat
  zeta_chain_id : Nat
  supported_assets : List SupportedAsset
deriving DecidableEq

/-- The single-slot inbound mailbox account (`Pda`); `last_message` holds the
UTF-8 bytes of the stored string. -/
structure Pda where
  last_sender : List Nat
  last_message : List Nat
deriving DecidableEq

/-- A custody transfer performed by a handler. -/
inductive Transfer where
  | sol (src dst : Pubkey) (amount : Nat)
  | spl (src dst auth : Pubkey) (amount : Nat)
deriving DecidableEq

/-- Events emitted by the lending-zeta connected program. -/
inductive Event where
  | AssetAdded (asset : Pubkey) (decimals : Nat) (is_native : Bool)
  | AssetRemoved (asset : Pubkey)
  | DepositInitiated (user asset : Pubkey) (amount : Nat) (on_behalf_of : List Nat)
  | RepayInitiated (user asset : Pubkey) (amount : Nat) (on_behalf_of : List Nat)
  | BorrowCrossChainInitiated (user asset : Pubkey) (amount : Nat)
      (destination_chain : Nat) (recipient : List Nat)
  | WithdrawCrossChainInitiated (user asset : Pubkey) (amount : Nat)
      (destination_chain : Nat) (recipient : List Nat)
  | LendingProtocolAddressUpdated (old_address new_address : List Nat) (chain_id : Nat)
deriving DecidableEq

/-- The 16-byte zero-padded action tag: a `[0u8; 16]` buffer whose first
`min (length s) 16` bytes are copied from the tag string (for
`"withdrawCrossChain"`, 18 bytes long, this truncates to the first 16). -/
def actionTag (s : String) : List Nat :=
  (asciiBytes s ++ List.replicate 16 0).take 16

/-- `SupplyMessage` (Borsh): action tag, beneficiary, amount, timestamp.
`timestamp` is the `i64` clock value as its 64-bit pattern. -/
structure SupplyMessage where
  action : List Nat
  on_behalf_of : List Nat
  amount : Nat
  timestamp : Nat

/-- Borsh serialization of `SupplyMessage`: `[u8; N]` fields as raw bytes,
`u64`/`i64` little-endian, fields in declaration order. -/
def SupplyMessage.serialize (m : SupplyMessage) : List Nat :=
  m.action ++ m.on_behalf_of ++ le8 m.amount ++ le8 m.timestamp

/-- `RepayMessage` (Borsh). -/
structure RepayMessage where
  action : List Nat
  on_behalf_of : List Nat
  amount : Nat
  timestamp : Nat

/-- Borsh serialization of `RepayMessage`. -/
def RepayMessage.serialize (m : RepayMessage) : List Nat :=
  m.action ++ m.on_behalf_of ++ le8 m.amount ++ le8 m.timestamp

/-- `BorrowCrossChainMessage` (Borsh): tag, 32-byte user key, amount,
destination chain, 20-byte recipient, timestamp. -/
structure BorrowCrossChainMessage where
  action : List Nat
  user : Pubkey
  amount : Nat
  destination_chain : Nat
  recipient : List Nat
  timestamp : Nat

/-- Borsh serialization of `BorrowCrossChainMessage` (a `Pubkey` serializes
as its raw 32 bytes). -/
def BorrowCrossChainMessage.serialize (m : BorrowCrossChainMessage) : List Nat :=
  m.action ++ m.user ++ le8 m.amount ++ le8 m.destination_chain
    ++ m.recipient ++ le8 m.timestamp

/-- `WithdrawCrossChainMessage` (Borsh). -/
structure WithdrawCrossChainMessage where
  action : List Nat
  user : Pubkey
  amount : Nat
  destination_chain : Nat
  recipient : List Nat
  timestamp : Nat

/-- Borsh serialization of `WithdrawCrossChainMessage`. -/
def WithdrawCrossChainMessage.serialize (m : WithdrawCrossChainMessage) : List Nat :=
  m.action ++ m.user ++ le8 m.amount ++ le8 m.destination_chain
    ++ m.recipient ++ le8 m.timestamp

/-- `encode_supply_message`: builds the action buffer with `"supply"` in its
first 6 bytes and Borsh-serializes the struct.  `clock_ts` is the
`Clock::get()?.unix_timestamp` sampled at encode time; serialization of
these fixed-size fields cannot fail, so the `EncodingError` arm of
`try_to_vec` is dead and the result is the byte list itself. -/
def encode_supply_message (on_behalf_of : List Nat) (amount : Nat)
    (clock_ts : Nat) : List Nat :=
  (SupplyMessage.mk (actionTag ("supply")) on_behalf_of amount clock_ts).serialize

/-- `encode_repay_message`. -/
def encode_repay_message (on_behalf_of : List Nat) (amount : Nat)
    (clock_ts : Nat) : List Nat :=
  (RepayMessage.mk (actionTag ("repay")) on_behalf_of amount clock_ts).serialize

/-- `encode_borrow_cross_chain_message` (tag `"borrowCrossChain"`, exactly 16
bytes). -/
def encode_borrow_cross_chain_message (user : Pubkey) (amount : Nat)
    (destination_chain : Nat) (recipient : List Nat) (clock_ts : Nat) : List Nat :=
  (BorrowCrossChainMessage.mk (actionTag ("borrowCrossChain")) user amount
    destination_chain recipient clock_ts).serialize

/-- `encode_withdraw_cross_chain_message` (tag `"withdrawCrossChain"`, 18
bytes, truncated by the `copy_len = min(len, 16)` logic). -/
def encode_withdraw_cross_chain_message (user : Pubkey) (amount : Nat)
    (destination_chain : Nat) (recipient : List Nat) (clock_ts : Nat) : List Nat :=
  (WithdrawCrossChainMessage.mk (actionTag ("withdrawCrossChain")) user amount
    destination_chain recipient clock_ts).serialize

/-- The scan predicate of `deposit_sol`/`repay_sol`: a slot matching
`Pubkey::default()` that is native and supported. -/
def solEntryOk (a : SupportedAsset) : Bool :=
  decide (a.mint = systemProgramId) && a.is_native && a.is_supported

/-- The scan predicate of `deposit_token`/`repay_token` for `mint`:
a slot with that mint that is non-native and supported. -/
def tokenEntryOk (mint : Pubkey) (a : SupportedAsset) : Bool :=
  decide (a.mint = mint) && !a.is_native && a.is_supported

/-- Result payload of a value-flow handler: custody transfers, the encoded
(and, in the source, discarded) cross-chain message, and the event. -/
abbrev FlowOut := List Transfer × List Nat × Event

/-- `add_supported_asset`: capacity check against `MAX_SUPPORTED_ASSETS`,
then writes the new entry at slot `asset_count` and increments the count —
an append to the live prefix. -/
def add_supported_asset (s : DepositContract) (asset_mint : Pubkey)
    (decimals : Nat) (is_native : Bool) :
    Except ErrorCode (DepositContract × Event) :=
  if s.supported_assets.length < MAX_SUPPORTED_ASSETS then
    .ok ({ s with supported_assets :=
            s.supported_assets ++ [⟨asset_mint, true, decimals, is_native⟩] },
      .AssetAdded asset_mint decimals is_native)
  else .error .MaxAssetsReached

/-- The linear scan of `remove_supported_asset`: first index whose slot's
mint equals the argument. -/
def scanIndex (s : DepositContract) (asset_mint : Pubkey) : Option Nat :=
  s.supported_assets.findIdx? (fun a => decide (a.mint = asset_mint))

/-- The deterministic first-match-by-equality scan over the registry,
returning the entry it sees for `asset_mint`. -/
def firstMatch (s : DepositContract) (asset_mint : Pubkey) : Option SupportedAsset :=
  s.supported_assets.find? (fun a => decide (a.mint = asset_mint))

/-- `remove_supported_asset`: linear scan for the first slot with the given
mint (`AssetNotSupported` when absent); if the found index is not the last
live slot, the last live entry is copied into it; `asset_count` is
decremented (`take (n-1)` on the live prefix). -/
def remove_supported_asset (s : DepositContract) (asset_mint : Pubkey) :
    Except ErrorCode (DepositContract × Event) :=
  match scanIndex s asset_mint with
  | none => .error .AssetNotSupported
  | some i =>
    let n := s.supported_assets.length
    let assets :=
      if i < n - 1 then
        (s.supported_assets.set i
          (s.supported_assets.getD (n - 1) default)).take (n - 1)
      else
        s.supported_assets.take (n - 1)
    .ok ({ s with supported_assets := assets }, .AssetRemoved asset_mint)

/-- `deposit_sol`: `require!(amount > 0)`, linear scan for a supported native
SOL slot (`AssetNotSupported` otherwise), SOL transfer from the depositor to
the contract PDA, message encode (discarded by the source), event. -/
def deposit_sol (s : DepositContract) (depositor contract_key : Pubkey)
    (amount : Nat) (on_behalf_of : List Nat) (clock_ts : Nat) :
    Except ErrorCode FlowOut :=
  if amount = 0 then .error .InvalidAmount
  else if s.supported_assets.any solEntryOk then
    let t := Transfer.sol depositor contract_key amount
    let message := encode_supply_message on_behalf_of amount clock_ts
    .ok ([t], message, .DepositInitiated depositor systemProgramId amount on_behalf_of)
  else .error .AssetNotSupported

/-- `deposit_token`: `require!(amount > 0)`, linear scan for a supported
non-native slot with this mint (`AssetNotSupported` otherwise — there is no
wrong-path error in this program), SPL transfer, message encode, event. -/
def deposit_token (s : DepositContract)
    (depositor mint depositor_token_account contract_token_account : Pubkey)
    (amount : Nat) (on_behalf_of : List Nat) (clock_ts : Nat) :
    Except ErrorCode FlowOut :=
  if amount = 0 then .error .InvalidAmount
  else if s.supported_assets.any (tokenEntryOk mint) then
    let t := Transfer.spl depositor_token_account contract_token_account depositor amount
    let message := encode_supply_message on_behalf_of amount clock_ts
    .ok ([t], message, .DepositInitiated depositor mint amount on_behalf_of)
  else .error .AssetNotSupported

/-- `repay_token`: same checks as `deposit_token`, repay message,
`RepayInitiated`. -/
def repay_token (s : DepositContract)
    (repayer mint repayer_token_account contract_token_account : Pubkey)
    (amount : Nat) (on_behalf_of : List Nat) (clock_ts : Nat) :
    Except ErrorCode FlowOut :=
  if amount = 0 then .error .InvalidAmount
  else if s.supported_assets.any (tokenEntryOk mint) then
    let t := Transfer.spl repayer_token_account contract_token_account repayer amount
    let message := encode_repay_message on_behalf_of amount clock_ts
    .ok ([t], message, .RepayInitiated repayer mint amount on_behalf_of)
  else .error .AssetNotSupported

/-- `repay_sol`: same checks as `deposit_sol`, repay message,
`RepayInitiated`. -/
def repay_sol (s : DepositContract) (repayer contract_key : Pubkey)
    (amount : Nat) (on_behalf_of : List Nat) (clock_ts : Nat) :
    Except ErrorCode FlowOut :=
  if amount = 0 then .error .InvalidAmount
  else if s.supported_assets.any solEntryOk then
    let t := Transfer.sol repayer contract_key amount
    let message := encode_repay_message on_behalf_of amount clock_ts
    .ok ([t], message, .RepayInitiated repayer systemProgramId amount on_behalf_of)
  else .error .AssetNotSupported

/-- `update_lending_protocol_address`: `require!` of the expected chain id
against the stored one (`InvalidChainId` on mismatch, before any write),
then replaces the address and emits the old/new pair. -/
def update_lending_protocol_address (s : DepositContract)
    (new_address : List Nat) (expected_chain_id : Nat) :
    Except ErrorCode (DepositContract × Event) :=
  if expected_chain_id = s.zeta_chain_id then
    .ok ({ s with lending_protocol_address := new_address },
      .LendingProtocolAddressUpdated s.lending_protocol_address new_address
        s.zeta_chain_id)
  else .error .InvalidChainId

/-- `verify_tss_signature`: signer identity against the configured TSS
authority (`UnauthorizedTssAuthority`), then shape checks only —
`signature.len() == 64` (`InvalidSignature`; the parameter's Rust type is
`[u8; 64]`, so this is modelled on the byte list with the length coming as a
hypothesis) and message non-emptiness (`InvalidMessage`).  No cryptographic
verification of the signature over the message is performed (the source's
TODO). -/
def verify_tss_signature (message : List Nat) (signature : List Nat)
    (tss_signer : Pubkey) : Except ErrorCode Unit :=
  if tss_signer = tssPubkey then
    if signature.length = 64 then
      if message.isEmpty then .error .InvalidMessage
      else .ok ()
    else .error .InvalidSignature
  else .error .UnauthorizedTssAuthority

/-- `on_call`: gateway identity check (`UnauthorizedGateway`), TSS signature
verification, then overwrite of the mailbox — `last_sender` first, then
`last_message` after a UTF-8 parse of `data` (`InvalidDataFormat` on
failure; the `?`-abort rolls the sender write back, so the mailbox is
modelled as written only on full success). -/
def on_call (pda : Pda) (gateway_pda tss_signer : Pubkey) (amount : Nat)
    (sender : List Nat) (data : List Nat) (signature : List Nat) :
    Except ErrorCode Pda :=
  if gateway_pda = gatewayPubkey then
    match verify_tss_signature data signature tss_signer with
    | .error e => .error e
    | .ok _ =>
      if isValidUtf8 data then .ok ⟨sender, data⟩
      else .error .InvalidDataFormat
  else .error .UnauthorizedGateway

end LZ

namespace CC

/-- Error enum of the example connected program. -/
inductive ErrorCode where
  | InvalidDataFormat
deriving DecidableEq

/-- The single-slot mailbox account (`Pda`). -/
structure Pda where
  last_sender : List Nat
  last_message : List Nat
deriving DecidableEq

/-- `on_call` of the example connected program: stores the sender, parses
`data` as UTF-8 (`InvalidDataFormat` on failure) and stores the message.
The `gateway_pda` account is received but never compared against anything
(its `/// CHECK:` comment reads "Test contract"): there is no authentication
step, and `amount` is only logged. -/
def on_call (pda : Pda) (gateway_pda : Pubkey) (amount : Nat)
    (sender : List Nat) (data : List Nat) : Except ErrorCode Pda :=
  if isValidUtf8 data then .ok ⟨sender, data⟩
  else .error .InvalidDataFormat

end CC

/-- The custody transfers of a handler result: none when the call aborted
with an error (Solana transactional semantics), the recorded list on
success. -/
def transfersOf {ε τ α : Type} : Except ε (List τ × α) → List τ
  | .error _ => []
  | .ok (t, _) => t

/-! Theorems.  General list-slicing helpers first, then the claims. -/

theorem vecResize_of_length {l : List Nat} {n v : Nat} (h : l.length = n) :
    vecResize l n v = l := by
  simp [vecResize, h, List.take_of_length_le, Nat.le_of_eq]

theorem slice_eq {α : Type} {l p m s : List α} {n k : Nat}
    (hl : l = p ++ (m ++ s)) (hp : p.length = n) (hm : m.length = k) :
    (l.drop n).take k = m := by
  subst hl; rw [List.drop_left' hp, List.take_left' hm]

theorem drop_slice_eq {α : Type} {l p s : List α} {n : Nat}
    (hl : l = p ++ s) (hp : p.length = n) : l.drop n = s := by
  subst hl; exact List.drop_left' hp

theorem take_slice_eq {α : Type} {l p s : List α} {n : Nat}
    (hl : l = p ++ s) (hp : p.length = n) : l.take n = p := by
  subst hl; exact List.take_left' hp

theorem create_supply_message_decomp (B : List Nat) (h : B.length = 20) :
    DC.create_supply_message B =
      List.replicate 28 0 ++ (beBytes4 64 ++ (List.replicate 12 0 ++ (B
        ++ (List.replicate 28 0 ++ (beBytes4 6
        ++ (asciiBytes ("supply") ++ List.replicate 26 0)))))) := by
  have hb : (beBytes4 64).length = 4 := by decide
  have hb6 : (beBytes4 6).length = 4 := by decide
  have hsup : (asciiBytes ("supply")).length = 6 := by decide
  unfold DC.create_supply_message
  rw [vecResize_of_length (by simp [List.length_append, h, hb, hb6, hsup])]
  simp [List.append_assoc]

theorem create_repay_message_decomp (B : List Nat) (h : B.length = 20) :
    DC.create_repay_message B =
      List.replicate 28 0 ++ (beBytes4 64 ++ (List.replicate 12 0 ++ (B
        ++ (List.replicate 28 0 ++ (beBytes4 5
        ++ (asciiBytes ("repay") ++ List.replicate 27 0)))))) := by
  have hb : (beBytes4 64).length = 4 := by decide
  have hb5 : (beBytes4 5).length = 4 := by decide
  have hrep : (asciiBytes ("repay")).length = 5 := by decide
  unfold DC.create_repay_message
  rw [vecResize_of_length (by simp [List.length_append, h, hb, hb5, hrep])]
  simp [List.append_assoc]

/-- C1: for every 20-byte beneficiary `B`, `create_supply_message B` is
exactly 128 bytes with bytes[28..32] decoding big-endian to 64,
bytes[32..44] zero, bytes[44..64] equal to `B`, bytes[92..96] decoding
big-endian to 6, bytes[96..102] the ASCII of "supply", and every remaining
byte (0..28, 64..92, 102..128) zero; analogously for
`create_repay_message` with length word 5, tag "repay" at bytes[96..101]
and zeros from 101. -/
theorem c1_legacy_message_layout (B : List Nat) (h : B.length = 20) :
    (DC.create_supply_message B).length = 128 ∧
    (DC.create_supply_message B).take 28 = List.replicate 28 0 ∧
    beVal (((DC.create_supply_message B).drop 28).take 4) = 64 ∧
    ((DC.create_supply_message B).drop 32).take 12 = List.replicate 12 0 ∧
    ((DC.create_supply_message B).drop 44).take 20 = B ∧
    ((DC.create_supply_message B).drop 64).take 28 = List.replicate 28 0 ∧
    beVal (((DC.create_supply_message B).drop 92).take 4) = 6 ∧
    ((DC.create_supply_message B).drop 96).take 6 = asciiBytes ("supply") ∧
    (DC.create_supply_message B).drop 102 = List.replicate 26 0 ∧
    (DC.create_repay_message B).length = 128 ∧
    (DC.create_repay_message B).take 28 = List.replicate 28 0 ∧
    beVal (((DC.create_repay_message B).drop 28).take 4) = 64 ∧
    ((DC.create_repay_message B).drop 32).take 12 = List.replicate 12 0 ∧
    ((DC.create_repay_message B).drop 44).take 20 = B ∧
    ((DC.create_repay_message B).drop 64).take 28 = List.replicate 28 0 ∧
    beVal (((DC.create_repay_message B).drop 92).take 4) = 5 ∧
    ((DC.create_repay_message B).drop 96).take 5 = asciiBytes ("repay") ∧
    (DC.create_repay_message B).drop 101 = List.replicate 27 0 := by
  have hs := create_supply_message_decomp B h
  have hr := create_repay_message_decomp B h
  have hb64 : (beBytes4 64).length = 4 := by decide
  have hb6 : (beBytes4 6).length = 4 := by decide
  have hb5 : (beBytes4 5).length = 4 := by decide
  have hsup : (asciiBytes ("supply")).length = 6 := by decide
  have hrep : (asciiBytes ("repay")).length = 5 := by decide
  have len44 :
      (List.replicate 28 0 ++ beBytes4 64 ++ List.replicate 12 0 ++ B).length = 64 := by
    simp only [List.length_append, List.length_replicate, hb64, h]
  have e1s : (DC.create_supply_message B).length = 128 := by
    rw [hs]
    simp only [List.length_append, List.length_replicate, hb64, hb6, hsup, h]
  have e2s : (DC.create_supply_message B).take 28 = List.replicate 28 0 :=
    take_slice_eq hs (by decide)
  have e3s : ((DC.create_supply_message B).drop 28).take 4 = beBytes4 64 :=
    slice_eq hs (by decide) hb64
  have d32s : DC.create_supply_message B =
      ((List.replicate 28 0 ++ beBytes4 64) ++ (List.replicate 12 0 ++ (B ++ (List.replicate 28 0 ++ (beBytes4 6 ++ (asciiBytes ("supply") ++ List.replicate 26 0)))))) := by
    rw [hs]; simp only [List.append_assoc]
  have d44s : DC.create_supply_message B =
      ((List.replicate 28 0 ++ beBytes4 64 ++ List.replicate 12 0) ++ (B ++ (List.replicate 28 0 ++ (beBytes4 6 ++ (asciiBytes ("supply") ++ List.replicate 26 0))))) := by
    rw [hs]; simp only [List.append_assoc]
  have d64s : DC.create_supply_message B =
      ((List.replicate 28 0 ++ beBytes4 64 ++ List.replicate 12 0 ++ B) ++ (List.replicate 28 0 ++ (beBytes4 6 ++ (asciiBytes ("supply") ++ List.replicate 26 0)))) := by
    rw [hs]; simp only [List.append_assoc]
  have d92s : DC.create_supply_message B =
      ((List.replicate 28 0 ++ beBytes4 64 ++ List.replicate 12 0 ++ B ++ List.replicate 28 0) ++ (beBytes4 6 ++ (asciiBytes ("supply") ++ List.replicate 26 0))) := by
    rw [hs]; simp only [List.append_assoc]
  have d96s : DC.create_supply_message B =
      ((List.replicate 28 0 ++ beBytes4 64 ++ List.replicate 12 0 ++ B ++ List.replicate 28 0 ++ beBytes4 6) ++ (asciiBytes ("supply") ++ List.replicate 26 0)) := by
    rw [hs]; simp only [List.append_assoc]
  have d102s : DC.create_supply_message B =
      ((List.replicate 28 0 ++ beBytes4 64 ++ List.replicate 12 0 ++ B ++ List.replicate 28 0 ++ beBytes4 6 ++ asciiBytes ("supply")) ++ (List.replicate 26 0)) := by
    rw [hs]; simp only [List.append_assoc]
  have e4s : ((DC.create_supply_message B).drop 32).take 12 = List.replicate 12 0 :=
    slice_eq d32s (by decide) (by decide)
  have e5s : ((DC.create_supply_message B).drop 44).take 20 = B :=
    slice_eq d44s (by decide) h
  have e6s : ((DC.create_supply_message B).drop 64).take 28 = List.replicate 28 0 :=
    slice_eq d64s (by simp only [List.length_append, List.length_replicate, hb64, h]) (by decide)
  have e7s : ((DC.create_supply_message B).drop 92).take 4 = beBytes4 6 :=
    slice_eq d92s (by simp only [List.length_append, List.length_replicate, hb64, h]) hb6
  have e8s : ((DC.create_supply_message B).drop 96).take 6 = asciiBytes ("supply") :=
    slice_eq d96s (by simp only [List.length_append, List.length_replicate, hb64, hb6, h]) hsup
  have e9s : (DC.create_supply_message B).drop 102 = List.replicate 26 0 :=
    drop_slice_eq d102s (by simp only [List.length_append, List.length_replicate, hb64, hb6, hsup, h])
  have e1r : (DC.create_repay_message B).length = 128 := by
    rw [hr]
    simp only [List.length_append, List.length_replicate, hb64, hb5, hrep, h]
  have e2r : (DC.create_repay_message B).take 28 = List.replicate 28 0 :=
    take_slice_eq hr (by decide)
  have e3r : ((DC.create_repay_message B).drop 28).take 4 = beBytes4 64 :=
    slice_eq hr (by decide) hb64
  have d32r : DC.create_repay_message B =
      ((List.replicate 28 0 ++ beBytes4 64) ++ (List.replicate 12 0 ++ (B ++ (List.replicate 28 0 ++ (beBytes4 5 ++ (asciiBytes ("repay") ++ List.replicate 27 0)))))) := by
    rw [hr]; simp only [List.append_assoc]
  have d44r : DC.create_repay_message B =
      ((List.replicate 28 0 ++ beBytes4 64 ++ List.replicate 12 0) ++ (B ++ (List.replicate 28 0 ++ (beBytes4 5 ++ (asciiBytes ("repay") ++ List.replicate 27 0))))) := by
    rw [hr]; simp only [List.append_assoc]
  have d64r : DC.create_repay_message B =
      ((List.replicate 28 0 ++ beBytes4 64 ++ List.replicate 12 0 ++ B) ++ (List.replicate 28 0 ++ (beBytes4 5 ++ (asciiBytes ("repay") ++ List.replicate 27 0)))) := by
    rw [hr]; simp only [List.append_assoc]
  have d92r : DC.create_repay_message B =
      ((List.replicate 28 0 ++ beBytes4 64 ++ List.replicate 12 0 ++ B ++ List.replicate 28 0) ++ (beBytes4 5 ++ (asciiBytes ("repay") ++ List.replicate 27 0))) := by
    rw [hr]; simp only [List.append_assoc]
  have d96r : DC.create_repay_message B =
      ((List.replicate 28 0 ++ beBytes4 64 ++ List.replicate 12 0 ++ B ++ List.replicate 28 0 ++ beBytes4 5) ++ (asciiBytes ("repay") ++ List.replicate 27 0)) := by
    rw [hr]; simp only [List.append_assoc]
  have d102r : DC.create_repay_message B =
      ((List.replicate 28 0 ++ beBytes4 64 ++ List.replicate 12 0 ++ B ++ List.replicate 28 0 ++ beBytes4 5 ++ asciiBytes ("repay")) ++ (List.replicate 27 0)) := by
    rw [hr]; simp only [List.append_assoc]
  have e4r : ((DC.create_repay_message B).drop 32).take 12 = List.replicate 12 0 :=
    slice_eq d32r (by decide) (by decide)
  have e5r : ((DC.create_repay_message B).drop 44).take 20 = B :=
    slice_eq d44r (by decide) h
  have e6r : ((DC.create_repay_message B).drop 64).take 28 = List.replicate 28 0 :=
    slice_eq d64r (by simp only [List.length_append, List.length_replicate, hb64, h]) (by decide)
  have e7r : ((DC.create_repay_message B).drop 92).take 4 = beBytes4 5 :=
    slice_eq d92r (by simp only [List.length_append, List.length_replicate, hb64, h]) hb5
  have e8r : ((DC.create_repay_message B).drop 96).take 5 = asciiBytes ("repay") :=
    slice_eq d96r (by simp only [List.length_append, List.length_replicate, hb64, hb5, h]) hrep
  have e9r : (DC.create_repay_message B).drop 101 = List.replicate 27 0 :=
    drop_slice_eq d102r (by simp only [List.length_append, List.length_replicate, hb64, hb5, hrep, h])
  refine ⟨e1s, e2s, ?_, e4s, e5s, e6s, ?_, e8s, e9s,
    e1r, e2r, ?_, e4r, e5r, e6r, ?_, e8r, e9r⟩
  · rw [e3s]; decide
  · rw [e7s]; decide
  · rw [e3r]; decide
  · rw [e7r]; decide

/-- C1 witness: the layout properties evaluated at the concrete beneficiary
of twenty 9-bytes. -/
theorem c1_legacy_message_layout_witness :
    (List.replicate 20 9 : List Nat).length = 20 ∧
    ((DC.create_supply_message (List.replicate 20 9)).length = 128 ∧
     (DC.create_supply_message (List.replicate 20 9)).take 28 = List.replicate 28 0 ∧
     beVal (((DC.create_supply_message (List.replicate 20 9)).drop 28).take 4) = 64 ∧
     ((DC.create_supply_message (List.replicate 20 9)).drop 32).take 12 = List.replicate 12 0 ∧
     ((DC.create_supply_message (List.replicate 20 9)).drop 44).take 20 = List.replicate 20 9 ∧
     ((DC.create_supply_message (List.replicate 20 9)).drop 64).take 28 = List.replicate 28 0 ∧
     beVal (((DC.create_supply_message (List.replicate 20 9)).drop 92).take 4) = 6 ∧
     ((DC.create_supply_message (List.replicate 20 9)).drop 96).take 6 = asciiBytes ("supply") ∧
     (DC.create_supply_message (List.replicate 20 9)).drop 102 = List.replicate 26 0 ∧
     (DC.create_repay_message (List.replicate 20 9)).length = 128 ∧
     (DC.create_repay_message (List.replicate 20 9)).take 28 = List.replicate 28 0 ∧
     beVal (((DC.create_repay_message (List.replicate 20 9)).drop 28).take 4) = 64 ∧
     ((DC.create_repay_message (List.replicate 20 9)).drop 32).take 12 = List.replicate 12 0 ∧
     ((DC.create_repay_message (List.replicate 20 9)).drop 44).take 20 = List.replicate 20 9 ∧
     ((DC.create_repay_message (List.replicate 20 9)).drop 64).take 28 = List.replicate 28 0 ∧
     beVal (((DC.create_repay_message (List.replicate 20 9)).drop 92).take 4) = 5 ∧
     ((DC.create_repay_message (List.replicate 20 9)).drop 96).take 5 = asciiBytes ("repay") ∧
     (DC.create_repay_message (List.replicate 20 9)).drop 101 = List.replicate 27 0) :=
  ⟨by decide, c1_legacy_message_layout (List.replicate 20 9) (by decide)⟩

theorem le8_length (n : Nat) : (le8 n).length = 8 := rfl

theorem encode_supply_message_decomp (obo : List Nat) (a ts : Nat) :
    LZ.encode_supply_message obo a ts =
      LZ.actionTag ("supply") ++ (obo ++ (le8 a ++ le8 ts)) := by
  simp only [LZ.encode_supply_message, LZ.SupplyMessage.serialize, List.append_assoc]

theorem encode_repay_message_decomp (obo : List Nat) (a ts : Nat) :
    LZ.encode_repay_message obo a ts =
      LZ.actionTag ("repay") ++ (obo ++ (le8 a ++ le8 ts)) := by
  simp only [LZ.encode_repay_message, LZ.RepayMessage.serialize, List.append_assoc]

theorem encode_borrow_message_decomp (u : Pubkey) (a d : Nat) (r : List Nat) (ts : Nat) :
    LZ.encode_borrow_cross_chain_message u a d r ts =
      LZ.actionTag ("borrowCrossChain") ++ (u ++ (le8 a ++ (le8 d ++ (r ++ le8 ts)))) := by
  simp only [LZ.encode_borrow_cross_chain_message, LZ.BorrowCrossChainMessage.serialize,
    List.append_assoc]

theorem encode_withdraw_message_decomp (u : Pubkey) (a d : Nat) (r : List Nat) (ts : Nat) :
    LZ.encode_withdraw_cross_chain_message u a d r ts =
      LZ.actionTag ("withdrawCrossChain") ++ (u ++ (le8 a ++ (le8 d ++ (r ++ le8 ts)))) := by
  simp only [LZ.encode_withdraw_cross_chain_message, LZ.WithdrawCrossChainMessage.serialize,
    List.append_assoc]


/-- C2: each typed-binary encoder produces exactly the record
`16-byte zero-padded action tag ++ payload fields in fixed order ++ 8-byte
little-endian timestamp from the clock at encode time` (`clock_ts` models
`Clock::get()?.unix_timestamp`): `beneficiary(20) ++ amount(8 LE)` for
supply/repay; `user(32) ++ amount(8) ++ dest_chain(8) ++ recipient(20)` for
the cross-chain borrow/withdraw messages.  The `"withdrawCrossChain"` tag is
18 bytes and fills the 16-byte tag by truncation, the other tags are
zero-padded. -/
theorem c2_typed_binary_layout (obo u r : List Nat) (a d ts : Nat)
    (hobo : obo.length = 20) (huser : u.length = 32) (hrec : r.length = 20) :
    ((LZ.encode_supply_message obo a ts).length = 52 ∧
     (LZ.encode_supply_message obo a ts).take 16 = LZ.actionTag ("supply") ∧
     LZ.actionTag ("supply") = asciiBytes ("supply") ++ List.replicate 10 0 ∧
     ((LZ.encode_supply_message obo a ts).drop 16).take 20 = obo ∧
     ((LZ.encode_supply_message obo a ts).drop 36).take 8 = le8 a ∧
     (LZ.encode_supply_message obo a ts).drop 44 = le8 ts) ∧
    ((LZ.encode_repay_message obo a ts).length = 52 ∧
     (LZ.encode_repay_message obo a ts).take 16 = LZ.actionTag ("repay") ∧
     LZ.actionTag ("repay") = asciiBytes ("repay") ++ List.replicate 11 0 ∧
     ((LZ.encode_repay_message obo a ts).drop 16).take 20 = obo ∧
     ((LZ.encode_repay_message obo a ts).drop 36).take 8 = le8 a ∧
     (LZ.encode_repay_message obo a ts).drop 44 = le8 ts) ∧
    ((LZ.encode_borrow_cross_chain_message u a d r ts).length = 92 ∧
     (LZ.encode_borrow_cross_chain_message u a d r ts).take 16 =
       LZ.actionTag ("borrowCrossChain") ∧
     LZ.actionTag ("borrowCrossChain") = asciiBytes ("borrowCrossChain") ∧
     ((LZ.encode_borrow_cross_chain_message u a d r ts).drop 16).take 32 = u ∧
     ((LZ.encode_borrow_cross_chain_message u a d r ts).drop 48).take 8 = le8 a ∧
     ((LZ.encode_borrow_cross_chain_message u a d r ts).drop 56).take 8 = le8 d ∧
     ((LZ.encode_borrow_cross_chain_message u a d r ts).drop 64).take 20 = r ∧
     (LZ.encode_borrow_cross_chain_message u a d r ts).drop 84 = le8 ts) ∧
    ((LZ.encode_withdraw_cross_chain_message u a d r ts).length = 92 ∧
     (LZ.encode_withdraw_cross_chain_message u a d r ts).take 16 =
       LZ.actionTag ("withdrawCrossChain") ∧
     LZ.actionTag ("withdrawCrossChain") =
       (asciiBytes ("withdrawCrossChain")).take 16 ∧
     ((LZ.encode_withdraw_cross_chain_message u a d r ts).drop 16).take 32 = u ∧
     ((LZ.encode_withdraw_cross_chain_message u a d r ts).drop 48).take 8 = le8 a ∧
     ((LZ.encode_withdraw_cross_chain_message u a d r ts).drop 56).take 8 = le8 d ∧
     ((LZ.encode_withdraw_cross_chain_message u a d r ts).drop 64).take 20 = r ∧
     (LZ.encode_withdraw_cross_chain_message u a d r ts).drop 84 = le8 ts) := by
  have hsd := encode_supply_message_decomp obo a ts
  have hrd := encode_repay_message_decomp obo a ts
  have hbd := encode_borrow_message_decomp u a d r ts
  have hwd := encode_withdraw_message_decomp u a d r ts
  have tS : (LZ.actionTag ("supply")).length = 16 := by decide
  have d1S : LZ.encode_supply_message obo a ts = (LZ.actionTag ("supply") ++ obo) ++ (le8 a ++ le8 ts) := by
    rw [hsd]; simp only [List.append_assoc]
  have d2S : LZ.encode_supply_message obo a ts = (LZ.actionTag ("supply") ++ obo ++ le8 a) ++ le8 ts := by
    rw [hsd]; simp only [List.append_assoc]
  have lenS : (LZ.encode_supply_message obo a ts).length = 52 := by
    rw [hsd]
    simp only [List.length_append, tS, hobo, le8_length]
  have e1S : (LZ.encode_supply_message obo a ts).take 16 = LZ.actionTag ("supply") :=
    take_slice_eq hsd tS
  have e2S : ((LZ.encode_supply_message obo a ts).drop 16).take 20 = obo :=
    slice_eq hsd tS hobo
  have e3S : ((LZ.encode_supply_message obo a ts).drop 36).take 8 = le8 a :=
    slice_eq d1S (by simp only [List.length_append, tS, hobo]) (le8_length a)
  have e4S : (LZ.encode_supply_message obo a ts).drop 44 = le8 ts :=
    drop_slice_eq d2S (by simp only [List.length_append, tS, hobo, le8_length])
  have tR : (LZ.actionTag ("repay")).length = 16 := by decide
  have d1R : LZ.encode_repay_message obo a ts = (LZ.actionTag ("repay") ++ obo) ++ (le8 a ++ le8 ts) := by
    rw [hrd]; simp only [List.append_assoc]
  have d2R : LZ.encode_repay_message obo a ts = (LZ.actionTag ("repay") ++ obo ++ le8 a) ++ le8 ts := by
    rw [hrd]; simp only [List.append_assoc]
  have lenR : (LZ.encode_repay_message obo a ts).length = 52 := by
    rw [hrd]
    simp only [List.length_append, tR, hobo, le8_length]
  have e1R : (LZ.encode_repay_message obo a ts).take 16 = LZ.actionTag ("repay") :=
    take_slice_eq hrd tR
  have e2R : ((LZ.encode_repay_message obo a ts).drop 16).take 20 = obo :=
    slice_eq hrd tR hobo
  have e3R : ((LZ.encode_repay_message obo a ts).drop 36).take 8 = le8 a :=
    slice_eq d1R (by simp only [List.length_append, tR, hobo]) (le8_length a)
  have e4R : (LZ.encode_repay_message obo a ts).drop 44 = le8 ts :=
    drop_slice_eq d2R (by simp only [List.length_append, tR, hobo, le8_length])
  have tB : (LZ.actionTag ("borrowCrossChain")).length = 16 := by decide
  have d1B : LZ.encode_borrow_cross_chain_message u a d r ts = (LZ.actionTag ("borrowCrossChain") ++ u) ++ (le8 a ++ (le8 d ++ (r ++ le8 ts))) := by
    rw [hbd]; simp only [List.append_assoc]
  have d2B : LZ.encode_borrow_cross_chain_message u a d r ts = (LZ.actionTag ("borrowCrossChain") ++ u ++ le8 a) ++ (le8 d ++ (r ++ le8 ts)) := by
    rw [hbd]; simp only [List.append_assoc]
  have d3B : LZ.encode_borrow_cross_chain_message u a d r ts = (LZ.actionTag ("borrowCrossChain") ++ u ++ le8 a ++ le8 d) ++ (r ++ le8 ts) := by
    rw [hbd]; simp only [List.append_assoc]
  have d4B : LZ.encode_borrow_cross_chain_message u a d r ts = (LZ.actionTag ("borrowCrossChain") ++ u ++ le8 a ++ le8 d ++ r) ++ le8 ts := by
    rw [hbd]; simp only [List.append_assoc]
  have lenB : (LZ.encode_borrow_cross_chain_message u a d r ts).length = 92 := by
    rw [hbd]
    simp only [List.length_append, tB, huser, hrec, le8_length]
  have e1B : (LZ.encode_borrow_cross_chain_message u a d r ts).take 16 = LZ.actionTag ("borrowCrossChain") :=
    take_slice_eq hbd tB
  have e2B : ((LZ.encode_borrow_cross_chain_message u a d r ts).drop 16).take 32 = u :=
    slice_eq hbd tB huser
  have e3B : ((LZ.encode_borrow_cross_chain_message u a d r ts).drop 48).take 8 = le8 a :=
    slice_eq d1B (by simp only [List.length_append, tB, huser]) (le8_length a)
  have e4B : ((LZ.encode_borrow_cross_chain_message u a d r ts).drop 56).take 8 = le8 d :=
    slice_eq d2B (by simp only [List.length_append, tB, huser, le8_length]) (le8_length d)
  have e5B : ((LZ.encode_borrow_cross_chain_message u a d r ts).drop 64).take 20 = r :=
    slice_eq d3B (by simp only [List.length_append, tB, huser, le8_length]) hrec
  have e6B : (LZ.encode_borrow_cross_chain_message u a d r ts).drop 84 = le8 ts :=
    drop_slice_eq d4B (by simp only [List.length_append, tB, huser, le8_length, hrec])
  have tW : (LZ.actionTag ("withdrawCrossChain")).length = 16 := by decide
  have d1W : LZ.encode_withdraw_cross_chain_message u a d r ts = (LZ.actionTag ("withdrawCrossChain") ++ u) ++ (le8 a ++ (le8 d ++ (r ++ le8 ts))) := by
    rw [hwd]; simp only [List.append_assoc]
  have d2W : LZ.encode_withdraw_cross_chain_message u a d r ts = (LZ.actionTag ("withdrawCrossChain") ++ u ++ le8 a) ++ (le8 d ++ (r ++ le8 ts)) := by
    rw [hwd]; simp only [List.append_assoc]
  have d3W : LZ.encode_withdraw_cross_chain_message u a d r ts = (LZ.actionTag ("withdrawCrossChain") ++ u ++ le8 a ++ le8 d) ++ (r ++ le8 ts) := by
    rw [hwd]; simp only [List.append_assoc]
  have d4W : LZ.encode_withdraw_cross_chain_message u a d r ts = (LZ.actionTag ("withdrawCrossChain") ++ u ++ le8 a ++ le8 d ++ r) ++ le8 ts := by
    rw [hwd]; simp only [List.append_assoc]
  have lenW : (LZ.encode_withdraw_cross_chain_message u a d r ts).length = 92 := by
    rw [hwd]
    simp only [List.length_append, tW, huser, hrec, le8_length]
  have e1W : (LZ.encode_withdraw_cross_chain_message u a d r ts).take 16 = LZ.actionTag ("withdrawCrossChain") :=
    take_slice_eq hwd tW
  have e2W : ((LZ.encode_withdraw_cross_chain_message u a d r ts).drop 16).take 32 = u :=
    slice_eq hwd tW huser
  have e3W : ((LZ.encode_withdraw_cross_chain_message u a d r ts).drop 48).take 8 = le8 a :=
    slice_eq d1W (by simp only [List.length_append, tW, huser]) (le8_length a)
  have e4W : ((LZ.encode_withdraw_cross_chain_message u a d r ts).drop 56).take 8 = le8 d :=
    slice_eq d2W (by simp only [List.length_append, tW, huser, le8_length]) (le8_length d)
  have e5W : ((LZ.encode_withdraw_cross_chain_message u a d r ts).drop 64).take 20 = r :=
    slice_eq d3W (by simp only [List.length_append, tW, huser, le8_length]) hrec
  have e6W : (LZ.encode_withdraw_cross_chain_message u a d r ts).drop 84 = le8 ts :=
    drop_slice_eq d4W (by simp only [List.length_append, tW, huser, le8_length, hrec])
  exact ⟨⟨lenS, e1S, by decide, e2S, e3S, e4S⟩,
    ⟨lenR, e1R, by decide, e2R, e3R, e4R⟩,
    ⟨lenB, e1B, by decide, e2B, e3B, e4B, e5B, e6B⟩,
    ⟨lenW, e1W, by decide, e2W, e3W, e4W, e5W, e6W⟩⟩

/-- C2 witness: the typed-binary layout at a concrete beneficiary, user,
recipient, amount 7, destination chain 11155111 and clock value
1700000000. -/
theorem c2_typed_binary_layout_witness :
    ((List.replicate 20 1 : List Nat).length = 20 ∧
     (List.replicate 32 2 : List Nat).length = 32 ∧
     (List.replicate 20 3 : List Nat).length = 20) ∧
    (LZ.encode_supply_message (List.replicate 20 1) 7 1700000000).take 16 =
      LZ.actionTag ("supply") ∧
    ((LZ.encode_borrow_cross_chain_message (List.replicate 32 2) 7 11155111
        (List.replicate 20 3) 1700000000).drop 64).take 20 = List.replicate 20 3 :=
  ⟨⟨by decide, by decide, by decide⟩,
   ((c2_typed_binary_layout (List.replicate 20 1) (List.replicate 32 2)
      (List.replicate 20 3) 7 11155111 1700000000
      (by decide) (by decide) (by decide)).1.2.1),
   ((c2_typed_binary_layout (List.replicate 20 1) (List.replicate 32 2)
      (List.replicate 20 3) 7 11155111 1700000000
      (by decide) (by decide) (by decide)).2.2.1.2.2.2.2.2.2.1)⟩

/-- C6: in the deposit-contract bridge (unpaused), every native deposit
amount strictly between zero and the 2_000_000-lamport fee floor fails with
`InsufficientDepositFee`, while a zero amount fails with the distinct error
`InvalidAmount`; `repay_sol` enforces the same floor. -/
theorem c6_deposit_fee_floor (s : DC.ContractState) (hp : s.is_paused = false)
    (user : Pubkey) (amount : Nat) (on_behalf_of : List Nat)
    (h1 : 0 < amount) (h2 : amount < DC.DEPOSIT_FEE) :
    DC.deposit_sol s user amount on_behalf_of = .error .InsufficientDepositFee ∧
    DC.repay_sol s user amount on_behalf_of = .error .InsufficientDepositFee ∧
    DC.deposit_sol s user 0 on_behalf_of = .error .InvalidAmount ∧
    DC.DepositContractError.InsufficientDepositFee ≠
      DC.DepositContractError.InvalidAmount := by
  refine ⟨?_, ?_, ?_, by decide⟩ <;>
    simp [DC.deposit_sol, DC.repay_sol, hp, Nat.pos_iff_ne_zero.mp h1, h2]

/-- C6 witness: a 1_000_000-lamport deposit on a concrete unpaused state
fails with `InsufficientDepositFee`. -/
theorem c6_deposit_fee_floor_witness :
    ((⟨List.replicate 32 4, List.replicate 20 5, 7001, false, 255⟩ :
        DC.ContractState).is_paused = false ∧ 0 < 1000000 ∧
      1000000 < DC.DEPOSIT_FEE) ∧
    DC.deposit_sol ⟨List.replicate 32 4, List.replicate 20 5, 7001, false, 255⟩
      (List.replicate 32 6) 1000000 (List.replicate 20 7) =
        .error .InsufficientDepositFee :=
  ⟨⟨by decide, by decide, by decide⟩,
   (c6_deposit_fee_floor ⟨List.replicate 32 4, List.replicate 20 5, 7001, false, 255⟩
      (by decide) (List.replicate 32 6) 1000000 (List.replicate 20 7)
      (by decide) (by decide)).1⟩

/-- C7: with a zero amount, every value-moving entry point of both bridge
variants fails with `InvalidAmount` and performs no custody transfer (the
deposit-contract checks run under an unpaused state, since its pause check
precedes the amount check). -/
theorem c7_zero_amount (s : DC.ContractState) (hp : s.is_paused = false)
    (cfg : DC.AssetConfig) (user mint utok ctok : Pubkey) (obo : List Nat)
    (s2 : LZ.DepositContract) (dep ckey mint2 dtok ctok2 : Pubkey)
    (obo2 : List Nat) (ts : Nat) :
    DC.deposit_sol s user 0 obo = .error .InvalidAmount ∧
    DC.deposit_spl_token s cfg user mint utok ctok 0 obo = .error .InvalidAmount ∧
    DC.repay_sol s user 0 obo = .error .InvalidAmount ∧
    DC.repay_spl_token s cfg user mint utok ctok 0 obo = .error .InvalidAmount ∧
    LZ.deposit_sol s2 dep ckey 0 obo2 ts = .error .InvalidAmount ∧
    LZ.deposit_token s2 dep mint2 dtok ctok2 0 obo2 ts = .error .InvalidAmount ∧
    LZ.repay_sol s2 dep ckey 0 obo2 ts = .error .InvalidAmount ∧
    LZ.repay_token s2 dep mint2 dtok ctok2 0 obo2 ts = .error .InvalidAmount ∧
    transfersOf (DC.deposit_sol s user 0 obo) = [] ∧
    transfersOf (DC.deposit_spl_token s cfg user mint utok ctok 0 obo) = [] ∧
    transfersOf (DC.repay_sol s user 0 obo) = [] ∧
    transfersOf (DC.repay_spl_token s cfg user mint utok ctok 0 obo) = [] ∧
    transfersOf (LZ.deposit_sol s2 dep ckey 0 obo2 ts) = [] ∧
    transfersOf (LZ.deposit_token s2 dep mint2 dtok ctok2 0 obo2 ts) = [] ∧
    transfersOf (LZ.repay_sol s2 dep ckey 0 obo2 ts) = [] ∧
    transfersOf (LZ.repay_token s2 dep mint2 dtok ctok2 0 obo2 ts) = [] := by
  refine ⟨?_, ?_, ?_, ?_, ?_, ?_, ?_, ?_, ?_, ?_, ?_, ?_, ?_, ?_, ?_, ?_⟩ <;>
    simp [DC.deposit_sol, DC.deposit_spl_token, DC.repay_sol, DC.repay_spl_token,
      LZ.deposit_sol, LZ.deposit_token, LZ.repay_sol, LZ.repay_token,
      transfersOf, hp]

/-- C7 witness: zero-amount calls on concrete states of both variants. -/
theorem c7_zero_amount_witness :
    (⟨List.replicate 32 4, List.replicate 20 5, 7001, false, 255⟩ :
        DC.ContractState).is_paused = false ∧
    DC.deposit_sol ⟨List.replicate 32 4, List.replicate 20 5, 7001, false, 255⟩
      (List.replicate 32 6) 0 (List.replicate 20 7) = .error .InvalidAmount ∧
    LZ.deposit_sol ⟨List.replicate 32 8, List.replicate 20 5, 7001, []⟩
      (List.replicate 32 6) (List.replicate 32 9) 0 (List.replicate 20 7) 1700000000 =
        .error .InvalidAmount :=
  ⟨by decide,
   (c7_zero_amount ⟨List.replicate 32 4, List.replicate 20 5, 7001, false, 255⟩
      (by decide) ⟨List.replicate 32 10, 6, false, true, 254⟩
      (List.replicate 32 6) (List.replicate 32 10) (List.replicate 32 11)
      (List.replicate 32 12) (List.replicate 20 7)
      ⟨List.replicate 32 8, List.replicate 20 5, 7001, []⟩
      (List.replicate 32 6) (List.replicate 32 9) (List.replicate 32 13)
      (List.replicate 32 14) (List.replicate 32 15) (List.replicate 20 7)
      1700000000).1,
   (c7_zero_amount ⟨List.replicate 32 4, List.replicate 20 5, 7001, false, 255⟩
      (by decide) ⟨List.replicate 32 10, 6, false, true, 254⟩
      (List.replicate 32 6) (List.replicate 32 10) (List.replicate 32 11)
      (List.replicate 32 12) (List.replicate 20 7)
      ⟨List.replicate 32 8, List.replicate 20 5, 7001, []⟩
      (List.replicate 32 6) (List.replicate 32 9) (List.replicate 32 13)
      (List.replicate 32 14) (List.replicate 32 15) (List.replicate 20 7)
      1700000000).2.2.2.2.1⟩

/-- C8: in both bridge variants, `update_lending_protocol_address` with an
expected chain id different from the stored one fails with `InvalidChainId`
(aborting, so every `BridgeConfig` field is untouched — the check runs
before any write); with the matching chain id it succeeds, the new state
differs from the old only in `lending_protocol_address`, and the emitted
event records the old and the new address together with the chain id. -/
theorem c8_update_lending_protocol_address (s : DC.ContractState)
    (s2 : LZ.DepositContract) (new20 : List Nat) (bad bad2 : Nat)
    (hbad : bad ≠ s.zeta_chain_id) (hbad2 : bad2 ≠ s2.zeta_chain_id) :
    DC.update_lending_protocol_address s new20 bad = .error .InvalidChainId ∧
    DC.update_lending_protocol_address s new20 s.zeta_chain_id =
      .ok ({ s with lending_protocol_address := new20 },
        .LendingProtocolAddressUpdated s.lending_protocol_address new20
          s.zeta_chain_id) ∧
    LZ.update_lending_protocol_address s2 new20 bad2 = .error .InvalidChainId ∧
    LZ.update_lending_protocol_address s2 new20 s2.zeta_chain_id =
      .ok ({ s2 with lending_protocol_address := new20 },
        .LendingProtocolAddressUpdated s2.lending_protocol_address new20
          s2.zeta_chain_id) := by
  refine ⟨?_, ?_, ?_, ?_⟩ <;>
    simp [DC.update_lending_protocol_address, LZ.update_lending_protocol_address,
      hbad, hbad2]

/-- C8 witness: concrete states with chain id 7001 and the mismatching
expected id 7000. -/
theorem c8_update_lending_protocol_address_witness :
    (7000 ≠ (⟨List.replicate 32 4, List.replicate 20 5, 7001, false, 255⟩ :
        DC.ContractState).zeta_chain_id) ∧
    DC.update_lending_protocol_address
      ⟨List.replicate 32 4, List.replicate 20 5, 7001, false, 255⟩
      (List.replicate 20 8) 7000 = .error .InvalidChainId :=
  ⟨by decide,
   (c8_update_lending_protocol_address
      ⟨List.replicate 32 4, List.replicate 20 5, 7001, false, 255⟩
      ⟨List.replicate 32 9, List.replicate 20 5, 7001, []⟩
      (List.replicate 20 8) 7000 7000 (by decide) (by decide)).1⟩

/-- C10: in `verify_tss_signature` the `InvalidSignature` branch is dead:
the signature parameter's Rust type is `[u8; 64]` (here: the length-64
hypothesis), so the length check always passes and the result never is
`InvalidSignature`; moreover the result does not depend on the signature
bytes at all (no cryptographic verification happens), and whenever the
signer key equals the configured TSS authority and the message is non-empty
the function returns `Ok`. -/
theorem c10_verify_tss_signature (message sig sig2 : List Nat) (k : Pubkey)
    (hsig : sig.length = 64) (hsig2 : sig2.length = 64) :
    LZ.verify_tss_signature message sig k ≠ .error .InvalidSignature ∧
    LZ.verify_tss_signature message sig k = LZ.verify_tss_signature message sig2 k ∧
    (k = LZ.tssPubkey → message ≠ [] →
      LZ.verify_tss_signature message sig k = .ok ()) := by
  refine ⟨?_, ?_, fun hk hm => ?_⟩
  · by_cases hk : k = LZ.tssPubkey <;>
      by_cases hm : message.isEmpty <;>
      simp [LZ.verify_tss_signature, hk, hm, hsig]
  · simp [LZ.verify_tss_signature, hsig, hsig2]
  · have : message.isEmpty = false := by
      cases message with
      | nil => exact absurd rfl hm
      | cons a l => rfl
    simp [LZ.verify_tss_signature, hk, hsig, this]

/-- C10 witness: a concrete 64-byte signature, the configured TSS key and a
non-empty message. -/
theorem c10_verify_tss_signature_witness :
    ((List.replicate 64 1 : List Nat).length = 64 ∧
     (List.replicate 64 2 : List Nat).length = 64) ∧
    LZ.verify_tss_signature [115, 111, 108] (List.replicate 64 1) LZ.tssPubkey ≠
      .error .InvalidSignature ∧
    LZ.verify_tss_signature [115, 111, 108] (List.replicate 64 1) LZ.tssPubkey =
      .ok () :=
  ⟨⟨by decide, by decide⟩,
   (c10_verify_tss_signature [115, 111, 108] (List.replicate 64 1)
      (List.replicate 64 2) LZ.tssPubkey (by decide) (by decide)).1,
   (c10_verify_tss_signature [115, 111, 108] (List.replicate 64 1)
      (List.replicate 64 2) LZ.tssPubkey (by decide) (by decide)).2.2 rfl
      (by decide)⟩

theorem lz_mem_allErrorCodes (e : LZ.ErrorCode) : e ∈ LZ.allErrorCodes := by
  cases e <;> simp [LZ.allErrorCodes]

/-- C3 counterexample: the claim extends the pause property to "both bridge
variants", but the lending-zeta connected variant has no pause flag at all —
its `DepositContract` state carries no `is_paused` field, it has no
`set_pause_state` entry point, and (shown here, with completeness of the
error list given by `lz_mem_allErrorCodes`) its error enum contains no
paused error whatsoever, so no entry point of that program can ever fail
with a `Paused`/`ContractPaused` error as the claim requires. -/
theorem c3_counterexample :
    ((LZ.allErrorCodes.map LZ.ErrorCode.msg).contains ("Contract is paused")) = false ∧
    ((LZ.allErrorCodes.map LZ.ErrorCode.msg).contains ("Paused")) = false ∧
    LZ.allErrorCodes.length = 15 := by decide

/-- C3 amended: in the deposit-contract variant, whenever `is_paused = true`
every value-moving or message-emitting entry point (`deposit_sol`,
`deposit_spl_token`, `repay_sol`, `repay_spl_token`, `borrow_cross_chain`,
`withdraw_cross_chain`) fails with `ContractPaused`, while `set_pause_state`,
`add_supported_asset`, `remove_supported_asset` and (with the matching chain
id) `update_lending_protocol_address` still succeed.  The lending-zeta
connected variant has no pause flag, no pause entry point and no paused
error code, so pause gating does not exist there (last conjunct). -/
theorem c3_pause_gating (s : DC.ContractState) (hp : s.is_paused = true)
    (cfg : DC.AssetConfig) (user mint utok ctok : Pubkey)
    (amount dest decimals bump : Nat) (obo recipient asset20 new20 : List Nat)
    (b : Bool) :
    DC.deposit_sol s user amount obo = .error .ContractPaused ∧
    DC.deposit_spl_token s cfg user mint utok ctok amount obo =
      .error .ContractPaused ∧
    DC.repay_sol s user amount obo = .error .ContractPaused ∧
    DC.repay_spl_token s cfg user mint utok ctok amount obo =
      .error .ContractPaused ∧
    DC.borrow_cross_chain s user asset20 amount dest recipient =
      .error .ContractPaused ∧
    DC.withdraw_cross_chain s user asset20 amount dest recipient =
      .error .ContractPaused ∧
    DC.set_pause_state s b = .ok ({ s with is_paused := b }, .PauseStateChanged b) ∧
    DC.add_supported_asset mint decimals b bump =
      .ok (⟨mint, decimals, b, true, bump⟩, .AssetAdded mint decimals b) ∧
    DC.remove_supported_asset cfg =
      .ok ({ cfg with is_supported := false }, .AssetRemoved cfg.mint) ∧
    DC.update_lending_protocol_address s new20 s.zeta_chain_id =
      .ok ({ s with lending_protocol_address := new20 },
        .LendingProtocolAddressUpdated s.lending_protocol_address new20
          s.zeta_chain_id) ∧
    ((LZ.allErrorCodes.map LZ.ErrorCode.msg).contains ("Contract is paused")) =
      false := by
  refine ⟨?_, ?_, ?_, ?_, ?_, ?_, ?_, ?_, ?_, ?_, by decide⟩ <;>
    simp [DC.deposit_sol, DC.deposit_spl_token, DC.repay_sol, DC.repay_spl_token,
      DC.borrow_cross_chain, DC.withdraw_cross_chain, DC.set_pause_state,
      DC.add_supported_asset, DC.remove_supported_asset,
      DC.update_lending_protocol_address, hp]

/-- C3 witness: a concrete paused state, on which `deposit_sol` fails with
`ContractPaused`. -/
theorem c3_pause_gating_witness :
    (⟨List.replicate 32 4, List.replicate 20 5, 7001, true, 255⟩ :
        DC.ContractState).is_paused = true ∧
    DC.deposit_sol ⟨List.replicate 32 4, List.replicate 20 5, 7001, true, 255⟩
      (List.replicate 32 6) 5000000 (List.replicate 20 7) =
        .error .ContractPaused :=
  ⟨by decide,
   (c3_pause_gating ⟨List.replicate 32 4, List.replicate 20 5, 7001, true, 255⟩
      (by decide) ⟨List.replicate 32 10, 6, false, true, 254⟩
      (List.replicate 32 6) (List.replicate 32 10) (List.replicate 32 11)
      (List.replicate 32 12) 5000000 421614 6 253 (List.replicate 20 7)
      (List.replicate 20 8) (List.replicate 20 9) (List.replicate 20 10)
      false).1⟩

/-- C4 counterexample: the example connected program's `on_call` performs no
gateway check — invoked with a gateway account that differs from the
configured gateway identity it still succeeds and overwrites the mailbox
(`last_sender`, `last_message`), rather than failing `UnauthorizedGateway`
with the record unchanged. -/
theorem c4_counterexample :
    CC.on_call ⟨List.replicate 20 0, []⟩ (List.replicate 32 1) 1
      (List.replicate 20 3) [115, 111, 108] =
        .ok ⟨List.replicate 20 3, [115, 111, 108]⟩ ∧
    (List.replicate 32 1 : Pubkey) ≠ LZ.gatewayPubkey ∧
    (⟨List.replicate 20 3, [115, 111, 108]⟩ : CC.Pda) ≠
      ⟨List.replicate 20 0, []⟩ := by
  refine ⟨?_, by decide, by decide⟩
  rfl

/-- C4 amended: in the lending-zeta connected variant, every `on_call` whose
gateway account is not the configured gateway identity fails with
`UnauthorizedGateway` (aborting before any mailbox write); the example
connected variant performs no gateway check at all — its `on_call` result
does not depend on the gateway account. -/
theorem c4_gateway_authentication (p : LZ.Pda) (g t : Pubkey)
    (hg : g ≠ LZ.gatewayPubkey) (amount : Nat) (sender data sig : List Nat)
    (q : CC.Pda) (g1 g2 : Pubkey) (a2 : Nat) (s2 d2 : List Nat) :
    LZ.on_call p g t amount sender data sig = .error .UnauthorizedGateway ∧
    CC.on_call q g1 a2 s2 d2 = CC.on_call q g2 a2 s2 d2 := by
  exact ⟨by simp [LZ.on_call, hg], rfl⟩

/-- C4 witness: a concrete wrong gateway key against the lending-zeta
`on_call`. -/
theorem c4_gateway_authentication_witness :
    (List.replicate 32 1 : Pubkey) ≠ LZ.gatewayPubkey ∧
    LZ.on_call ⟨List.replicate 20 0, []⟩ (List.replicate 32 1) LZ.tssPubkey 1
      (List.replicate 20 3) [115, 111, 108] (List.replicate 64 1) =
        .error .UnauthorizedGateway :=
  ⟨by decide,
   (c4_gateway_authentication ⟨List.replicate 20 0, []⟩ (List.replicate 32 1)
      LZ.tssPubkey (by decide) 1 (List.replicate 20 3) [115, 111, 108]
      (List.replicate 64 1) ⟨List.replicate 20 0, []⟩ (List.replicate 32 2)
      (List.replicate 32 3) 1 (List.replicate 20 3) [115, 111, 108]).1⟩

/-- C5 counterexample: in the lending-zeta connected variant, a registered
and supported asset whose `is_native = true` flag does not match the token
deposit path makes `deposit_token` fail with `AssetNotSupported` — the very
error the claim says can never occur — because this program has no
wrong-deposit-path error and its scan simply skips entries whose
`is_native` flag mismatches. -/
theorem c5_counterexample :
    LZ.deposit_token
      ⟨List.replicate 32 4, List.replicate 20 5, 7001,
        [⟨List.replicate 32 7, true, 9, true⟩]⟩
      (List.replicate 32 6) (List.replicate 32 7) (List.replicate 32 13)
      (List.replicate 32 14) 5 (List.replicate 20 8) 1700000000 =
      .error .AssetNotSupported ∧
    (⟨List.replicate 32 7, true, 9, true⟩ : LZ.SupportedAsset).is_supported =
      true ∧
    (⟨List.replicate 32 7, true, 9, true⟩ : LZ.SupportedAsset).is_native =
      true := by
  refine ⟨?_, by decide, by decide⟩
  rfl

/-- C5 amended: in the deposit-contract variant the claim holds — a
supported, native-flagged asset routed through the SPL token path fails
with the wrong-path error (`UseDepositSol` for deposits, `UseRepaySol` for
repays), never `UnsupportedAsset`.  In the lending-zeta connected variant a
native-flagged registered asset routed through the token path fails with
`AssetNotSupported` instead (there is no wrong-path error there). -/
theorem c5_wrong_deposit_path (s : DC.ContractState) (hp : s.is_paused = false)
    (cfg : DC.AssetConfig) (hsup : cfg.is_supported = true)
    (hnat : cfg.is_native = true) (user mint utok ctok : Pubkey)
    (amount : Nat) (ha : amount ≠ 0) (obo : List Nat)
    (s2 : LZ.DepositContract) (a : LZ.SupportedAsset) (m : Pubkey)
    (hmem : a ∈ s2.supported_assets) (hm : a.mint = m)
    (hnat2 : a.is_native = true)
    (hnd : (s2.supported_assets.map LZ.SupportedAsset.mint).Nodup)
    (dep dtok ctok2 : Pubkey) (amount2 : Nat) (ha2 : amount2 ≠ 0)
    (obo2 : List Nat) (ts : Nat) :
    DC.deposit_spl_token s cfg user mint utok ctok amount obo =
      .error .UseDepositSol ∧
    DC.repay_spl_token s cfg user mint utok ctok amount obo =
      .error .UseRepaySol ∧
    LZ.deposit_token s2 dep m dtok ctok2 amount2 obo2 ts =
      .error .AssetNotSupported ∧
    LZ.repay_token s2 dep m dtok ctok2 amount2 obo2 ts =
      .error .AssetNotSupported := by
  have hany : s2.supported_assets.any (LZ.tokenEntryOk m) = false := by
    rw [List.any_eq_false]
    intro b hb hbt
    simp only [LZ.tokenEntryOk, Bool.and_eq_true, decide_eq_true_eq,
      Bool.not_eq_true'] at hbt
    obtain ⟨⟨hbm, hbn⟩, hbs⟩ := hbt
    have hba : b = a :=
      List.inj_on_of_nodup_map hnd hb hmem (hbm.trans hm.symm)
    rw [hba, hnat2] at hbn
    exact absurd hbn (by decide)
  refine ⟨?_, ?_, ?_, ?_⟩ <;>
    simp [DC.deposit_spl_token, DC.repay_spl_token, LZ.deposit_token,
      LZ.repay_token, hp, ha, hsup, hnat, ha2, hany]

/-- C5 witness: a concrete supported native asset through the token paths of
both variants. -/
theorem c5_wrong_deposit_path_witness :
    ((⟨List.replicate 32 4, List.replicate 20 5, 7001, false, 255⟩ :
        DC.ContractState).is_paused = false ∧
     (⟨List.replicate 32 10, 9, true, true, 254⟩ :
        DC.AssetConfig).is_supported = true ∧
     (⟨List.replicate 32 10, 9, true, true, 254⟩ :
        DC.AssetConfig).is_native = true) ∧
    DC.deposit_spl_token
      ⟨List.replicate 32 4, List.replicate 20 5, 7001, false, 255⟩
      ⟨List.replicate 32 10, 9, true, true, 254⟩
      (List.replicate 32 6) (List.replicate 32 10) (List.replicate 32 11)
      (List.replicate 32 12) 5 (List.replicate 20 7) =
      .error .UseDepositSol :=
  ⟨⟨by decide, by decide, by decide⟩,
   (c5_wrong_deposit_path
      ⟨List.replicate 32 4, List.replicate 20 5, 7001, false, 255⟩ (by decide)
      ⟨List.replicate 32 10, 9, true, true, 254⟩ (by decide) (by decide)
      (List.replicate 32 6) (List.replicate 32 10) (List.replicate 32 11)
      (List.replicate 32 12) 5 (by decide) (List.replicate 20 7)
      ⟨List.replicate 32 4, List.replicate 20 5, 7001,
        [⟨List.replicate 32 7, true, 9, true⟩]⟩
      ⟨List.replicate 32 7, true, 9, true⟩ (List.replicate 32 7)
      (by decide) (by decide) (by decide) (by decide)
      (List.replicate 32 6) (List.replicate 32 13) (List.replicate 32 14) 5
      (by decide) (List.replicate 20 8) 1700000000).1⟩

theorem find?_eq_of_unique_getElem {α : Type} (p : α → Bool) (T : List α) :
    ∀ (t0 : Nat) (h0 : t0 < T.length), p (T[t0]) = true →
    (∀ k (hk : k < T.length), k ≠ t0 → p (T[k]) = false) →
    T.find? p = some (T[t0]) := by
  induction T with
  | nil => intro t0 h0 _ _; simp at h0
  | cons a T ih =>
    intro t0 h0 hp0 hother
    cases t0 with
    | zero =>
      simp only [List.getElem_cons_zero] at hp0 ⊢
      exact List.find?_cons_of_pos T hp0
    | succ t =>
      have ha : p a = false := by
        simpa using hother 0 (by simp) (by simp)
      have h0' : t < T.length := by simpa using h0
      rw [List.find?_cons_of_neg T (by simp [ha])]
      have := ih t h0' (by simpa using hp0)
        (fun k hk hkne => by
          simpa using hother (k + 1) (by simpa using Nat.succ_lt_succ hk)
            (by omega))
      simpa using this

theorem take_set_last {α : Type} (l : List α) (x : α) :
    (l.set (l.length - 1) x).take (l.length - 1) = l.take (l.length - 1) := by
  apply List.ext_getElem
  · simp
  · intro j h1 h2
    have hj : j < l.length - 1 := by
      simp only [List.length_take, List.length_set] at h1
      omega
    rw [List.getElem_take, List.getElem_take, List.getElem_set_ne (by omega)]

/-- C9 counterexample: `remove_supported_asset` uses swap-remove, which does
reorder surviving entries, contrary to the claim's
"copy-on-write replacement (not in-place shift)": removing the first of
three distinct registered assets moves the last entry into slot 0, so the
deterministic first-match scan finds asset `C` at position 0 after the
removal where it found it at position 2 before (copy-on-write would have
left it at position 2). -/
theorem c9_counterexample :
    LZ.remove_supported_asset
      ⟨List.replicate 32 4, List.replicate 20 5, 7001,
        [⟨List.replicate 32 1, true, 9, true⟩,
         ⟨List.replicate 32 2, true, 6, false⟩,
         ⟨List.replicate 32 3, true, 6, false⟩]⟩ (List.replicate 32 1) =
      .ok (⟨List.replicate 32 4, List.replicate 20 5, 7001,
        [⟨List.replicate 32 3, true, 6, false⟩,
         ⟨List.replicate 32 2, true, 6, false⟩]⟩,
        .AssetRemoved (List.replicate 32 1)) ∧
    LZ.scanIndex
      ⟨List.replicate 32 4, List.replicate 20 5, 7001,
        [⟨List.replicate 32 1, true, 9, true⟩,
         ⟨List.replicate 32 2, true, 6, false⟩,
         ⟨List.replicate 32 3, true, 6, false⟩]⟩ (List.replicate 32 3) =
      some 2 ∧
    LZ.scanIndex
      ⟨List.replicate 32 4, List.replicate 20 5, 7001,
        [⟨List.replicate 32 3, true, 6, false⟩,
         ⟨List.replicate 32 2, true, 6, false⟩]⟩ (List.replicate 32 3) =
      some 0 ∧
    (([⟨List.replicate 32 1, true, 9, true⟩,
       ⟨List.replicate 32 2, true, 6, false⟩,
       ⟨List.replicate 32 3, true, 6, false⟩] :
        List LZ.SupportedAsset).map LZ.SupportedAsset.mint).Nodup := by
  refine ⟨rfl, by decide, by decide, by decide⟩

theorem find?_swap_remove {α : Type} [Inhabited α] (p : α → Bool) (l : List α)
    (i : Nat) (hilen : i < l.length)
    (huniq : ∀ k kq (hk : k < l.length) (hkq : kq < l.length),
      p (l[k]) = true → p (l[kq]) = true → k = kq)
    (hpif : p (l[i]) = false) :
    ((l.set i (l.getD (l.length - 1) default)).take (l.length - 1)).find? p =
      l.find? p := by
  have hn1 : l.length - 1 < l.length := by omega
  have hb : l.getD (l.length - 1) default = l[l.length - 1] :=
    List.getD_eq_getElem l default hn1
  have hTlen : ((l.set i (l.getD (l.length - 1) default)).take
      (l.length - 1)).length = l.length - 1 := by
    simp only [List.length_take, List.length_set]
    omega
  cases hfm : l.find? p with
  | none =>
    rw [List.find?_eq_none]
    intro x hx
    rcases List.mem_or_eq_of_mem_set (List.mem_of_mem_take hx) with hxl | hxb
    · exact (List.find?_eq_none.mp hfm) x hxl
    · subst hxb
      rw [hb]
      exact (List.find?_eq_none.mp hfm) _ (List.getElem_mem hn1)
  | some e =>
    have hpe : p e = true := List.find?_some hfm
    obtain ⟨j, hjlen, hje⟩ := List.mem_iff_getElem.mp
      (List.mem_of_find?_eq_some hfm)
    have hji : j ≠ i := by
      intro hc
      subst hc
      rw [hje] at hpif
      rw [hpe] at hpif
      exact absurd hpif (by decide)
    by_cases hj : j = l.length - 1
    · have hile : i < l.length - 1 := by omega
      have hi0 : i < ((l.set i (l.getD (l.length - 1) default)).take
          (l.length - 1)).length := by omega
      have hT0 : ((l.set i (l.getD (l.length - 1) default)).take
          (l.length - 1))[i] = e := by
        rw [List.getElem_take, List.getElem_set_self (by simp [List.length_set]; omega),
          hb]
        subst hj
        exact hje
      rw [find?_eq_of_unique_getElem p _ i hi0 (by rw [hT0]; exact hpe)
        (fun k hk hkne => by
          have hkl : k < l.length - 1 := by omega
          have hTk : ((l.set i (l.getD (l.length - 1) default)).take
              (l.length - 1))[k] = l[k] := by
            rw [List.getElem_take, List.getElem_set_ne (by omega)]
          rw [hTk]
          cases hpk : p (l[k]) with
          | false => rfl
          | true =>
            exact absurd (huniq k j (by omega) hjlen hpk
              (by rw [hje]; exact hpe)) (by omega))]
      rw [hT0]
    · have hjl : j < l.length - 1 := by omega
      have hj0 : j < ((l.set i (l.getD (l.length - 1) default)).take
          (l.length - 1)).length := by omega
      have hT0 : ((l.set i (l.getD (l.length - 1) default)).take
          (l.length - 1))[j] = e := by
        rw [List.getElem_take, List.getElem_set_ne (by omega)]
        exact hje
      rw [find?_eq_of_unique_getElem p _ j hj0 (by rw [hT0]; exact hpe)
        (fun k hk hkne => by
          have hkl : k < l.length - 1 := by omega
          by_cases hki : k = i
          · have hTk : ((l.set i (l.getD (l.length - 1) default)).take
                (l.length - 1))[k] = l[l.length - 1] := by
              subst hki
              rw [List.getElem_take,
                List.getElem_set_self (by simp [List.length_set]; omega), hb]
            rw [hTk]
            cases hpk : p (l[l.length - 1]) with
            | false => rfl
            | true =>
              exact absurd (huniq (l.length - 1) j hn1 hjlen hpk
                (by rw [hje]; exact hpe)) (by omega)
          · have hTk : ((l.set i (l.getD (l.length - 1) default)).take
                (l.length - 1))[k] = l[k] := by
              rw [List.getElem_take, List.getElem_set_ne (by omega)]
            rw [hTk]
            cases hpk : p (l[k]) with
            | false => rfl
            | true =>
              exact absurd (huniq k j (by omega) hjlen hpk
                (by rw [hje]; exact hpe)) (by omega))]
      rw [hT0]

/-- C9 amended: `remove_supported_asset` performs swap-remove — the last
live entry is moved into the removed slot and the count is decremented, so
scan positions of surviving entries are not preserved (see the
counterexample) — but when registered mints are pairwise distinct, the
deterministic first-match-by-equality scan still returns the same entry
(same content) for every surviving asset id after a successful removal. -/
theorem c9_swap_remove_first_match (s : LZ.DepositContract) (m mq : Pubkey)
    (sq : LZ.DepositContract) (ev : LZ.Event)
    (hnd : (s.supported_assets.map LZ.SupportedAsset.mint).Nodup)
    (hne : mq ≠ m)
    (hrem : LZ.remove_supported_asset s m = .ok (sq, ev)) :
    sq.supported_assets.length = s.supported_assets.length - 1 ∧
    LZ.firstMatch sq mq = LZ.firstMatch s mq := by
  unfold LZ.remove_supported_asset at hrem
  cases hidx : LZ.scanIndex s m with
  | none => rw [hidx] at hrem; simp at hrem
  | some i =>
    rw [hidx] at hrem
    simp only [Except.ok.injEq, Prod.mk.injEq] at hrem
    obtain ⟨hs', _⟩ := hrem
    have hsa : sq.supported_assets =
        (if i < s.supported_assets.length - 1 then
          (s.supported_assets.set i
            (s.supported_assets.getD (s.supported_assets.length - 1)
              default)).take (s.supported_assets.length - 1)
        else s.supported_assets.take (s.supported_assets.length - 1)) := by
      rw [← hs']
    obtain ⟨hilen, hpi, hprev⟩ := List.findIdx?_eq_some_iff_getElem.mp hidx
    replace hpi : (s.supported_assets[i]).mint = m := by simpa using hpi
    have hXuni : sq.supported_assets =
        (s.supported_assets.set i
          (s.supported_assets.getD (s.supported_assets.length - 1)
            default)).take (s.supported_assets.length - 1) := by
      rw [hsa]
      by_cases hc : i < s.supported_assets.length - 1
      · rw [if_pos hc]
      · have hieq : i = s.supported_assets.length - 1 := by omega
        rw [if_neg hc, hieq, take_set_last]
    have hinj : ∀ k kq (hk : k < s.supported_assets.length)
        (hkq : kq < s.supported_assets.length),
        (s.supported_assets[k]).mint = (s.supported_assets[kq]).mint →
        k = kq := by
      intro k kq hk hkq hmm
      have hg := List.nodup_iff_injective_get.mp hnd
      have heq : (s.supported_assets.map LZ.SupportedAsset.mint).get
          ⟨k, by simpa using hk⟩ =
          (s.supported_assets.map LZ.SupportedAsset.mint).get
          ⟨kq, by simpa using hkq⟩ := by
        simp [List.get_eq_getElem, hmm]
      simpa using congrArg Fin.val (hg heq)
    constructor
    · rw [hXuni]
      simp only [List.length_take, List.length_set]
      omega
    · unfold LZ.firstMatch
      rw [hXuni]
      exact find?_swap_remove _ s.supported_assets i hilen
        (fun k kq hk hkq hpk hpkq =>
          hinj k kq hk hkq (by
            have h1 : (s.supported_assets[k]).mint = mq := by simpa using hpk
            have h2 : (s.supported_assets[kq]).mint = mq := by simpa using hpkq
            rw [h1, h2]))
        (by
          rw [decide_eq_false_iff_not, hpi]
          exact fun hc => hne hc.symm)

/-- C9 witness: removal of the middle asset in a concrete three-entry
registry with distinct mints preserves the first-match entry for the
surviving mints (here the last one, whose scan position changes). -/
theorem c9_swap_remove_first_match_witness :
    (([⟨List.replicate 32 1, true, 9, true⟩,
       ⟨List.replicate 32 2, true, 6, false⟩,
       ⟨List.replicate 32 3, true, 6, false⟩] :
        List LZ.SupportedAsset).map LZ.SupportedAsset.mint).Nodup ∧
    (List.replicate 32 3 : Pubkey) ≠ List.replicate 32 2 ∧
    ((⟨List.replicate 32 4, List.replicate 20 5, 7001,
        [⟨List.replicate 32 1, true, 9, true⟩,
         ⟨List.replicate 32 3, true, 6, false⟩]⟩ :
        LZ.DepositContract).supported_assets.length =
      ([⟨List.replicate 32 1, true, 9, true⟩,
        ⟨List.replicate 32 2, true, 6, false⟩,
        ⟨List.replicate 32 3, true, 6, false⟩] :
         List LZ.SupportedAsset).length - 1 ∧
     LZ.firstMatch
       ⟨List.replicate 32 4, List.replicate 20 5, 7001,
         [⟨List.replicate 32 1, true, 9, true⟩,
          ⟨List.replicate 32 3, true, 6, false⟩]⟩ (List.replicate 32 3) =
     LZ.firstMatch
       ⟨List.replicate 32 4, List.replicate 20 5, 7001,
         [⟨List.replicate 32 1, true, 9, true⟩,
          ⟨List.replicate 32 2, true, 6, false⟩,
          ⟨List.replicate 32 3, true, 6, false⟩]⟩ (List.replicate 32 3)) :=
  ⟨by decide, by decide,
   c9_swap_remove_first_match
     ⟨List.replicate 32 4, List.replicate 20 5, 7001,
       [⟨List.replicate 32 1, true, 9, true⟩,
        ⟨List.replicate 32 2, true, 6, false⟩,
        ⟨List.replicate 32 3, true, 6, false⟩]⟩
     (List.replicate 32 2) (List.replicate 32 3)
     ⟨List.replicate 32 4, List.replicate 20 5, 7001,
       [⟨List.replicate 32 1, true, 9, true⟩,
        ⟨List.replicate 32 3, true, 6, false⟩]⟩
     (.AssetRemoved (List.replicate 32 2))
     (by decide) (by decide) rfl⟩
